import Mathlib

/-!
Verification development for the ObjToSchematic core: the `VoxelMesh`
spatial data structure (voxel storage, overlap resolution, neighbour
adjacency queries) and the `Renderer` staged GPU-buffer state machine.

The `Renderer` definitions are a shallow embedding of the class
`Renderer` in the repository source (`src/unnamed/part_000`): each
method becomes a pure function on an explicit `RendererState`; GPU
handles (buffers, textures) are represented by the data they were
created from; floating-point scalars are modelled as rationals.

The file `voxel_mesh.ts` itself is not part of the provided sources -
only its unit tests are (`src/unnamed/part_002`).  The `VoxelMesh`
definitions are therefore modelled from the specification, with the
behaviour pinned down by the in-repository unit tests; each such
definition is marked `Modelled from the spec:` in its doc comment.
-/

namespace ObjToSchematic

/-- Integer 3-vector, embedding of the `Vector3` class restricted to
integer coordinates (voxel positions, chunk dimensions). -/
structure Vec3 where
  x : Int
  y : Int
  z : Int
deriving DecidableEq

/-- Componentwise addition, embedding `Vector3.add`. -/
def Vec3.add (a b : Vec3) : Vec3 := ⟨a.x + b.x, a.y + b.y, a.z + b.z⟩

/-- Componentwise negation, embedding `Vector3.negate`. -/
def Vec3.negate (a : Vec3) : Vec3 := ⟨-a.x, -a.y, -a.z⟩

/-- Rational 3-vector, embedding of `Vector3` where the source holds
floating-point data (grid offsets, scaled grid dimensions). -/
structure Vec3Q where
  x : ℚ
  y : ℚ
  z : ℚ
deriving DecidableEq

/-- RGBA colour with normalized channels, embedding the `RGBA` type;
the source's floating-point channels are modelled as rationals. -/
structure RGBA where
  r : ℚ
  g : ℚ
  b : ℚ
  a : ℚ
deriving DecidableEq

/-- Named colours used by the unit tests (`RGBAColours`). -/
def RGBAColours.WHITE : RGBA := ⟨1, 1, 1, 1⟩

/-- Named colour used by the unit tests (`RGBAColours`). -/
def RGBAColours.RED : RGBA := ⟨1, 0, 0, 1⟩

/-- Named colour used by the unit tests (`RGBAColours`). -/
def RGBAColours.BLUE : RGBA := ⟨0, 0, 1, 1⟩

/-- Modelled from the spec: the voxel overlap-resolution rule fixed at
`VoxelMesh` construction (`voxelOverlapRule`): `first` keeps the first
colour written, `average` maintains a running mean. -/
inductive VoxelOverlapRule where
  | first
  | average
deriving DecidableEq

/-- Modelled from the spec: the construction-time configuration of a
`VoxelMesh` (overlap rule and the opt-in ambient-occlusion mode). -/
structure VoxelMeshParams where
  voxelOverlapRule : VoxelOverlapRule
  enableAmbientOcclusion : Bool
deriving DecidableEq

/-- Modelled from the spec: one stored voxel - an integer coordinate,
its resolved colour, and the running count of colours written to this
coordinate (used by the `average` overlap rule's incremental mean). -/
structure Voxel where
  position : Vec3
  colour : RGBA
  collisions : Nat
deriving DecidableEq

/-- Modelled from the spec: the `VoxelMesh` state - the configuration,
the coordinate-keyed voxel store, and the neighbour-adjacency map from
coordinate to a bitmask of registered adjacency directions (the
`.value` read by `getNeighbours`).  `voxel_mesh.ts` is not among the
provided sources; the store and map are modelled as association lists
mirroring the JS `Map` (first-match lookup, in-place update, append on
new key). -/
structure VoxelMesh where
  params : VoxelMeshParams
  voxels : List Voxel
  neighbourMap : List (Vec3 × Nat)

/-- Modelled from the spec: a freshly constructed `VoxelMesh` is empty. -/
def VoxelMesh.empty (params : VoxelMeshParams) : VoxelMesh :=
  ⟨params, [], []⟩

/-- First-match lookup of a voxel by position (JS `Map.get` keyed by the
canonical encoding of the coordinate). -/
def findVoxel : List Voxel → Vec3 → Option Voxel
  | [], _ => none
  | v :: rest, p => if v.position = p then some v else findVoxel rest p

/-- Modelled from the spec: `isVoxelAt(position)` - O(1) existence
check on the coordinate-keyed store. -/
def VoxelMesh.isVoxelAt (m : VoxelMesh) (p : Vec3) : Bool :=
  (findVoxel m.voxels p).isSome

/-- Modelled from the spec: `getVoxelAt(position)` - lookup returning
the stored voxel or an explicit not-found result. -/
def VoxelMesh.getVoxelAt (m : VoxelMesh) (p : Vec3) : Option Voxel :=
  findVoxel m.voxels p

/-- Modelled from the spec: `getVoxelCount()`. -/
def VoxelMesh.getVoxelCount (m : VoxelMesh) : Nat :=
  m.voxels.length

/-- Modelled from the spec: the incremental running mean used by the
`average` overlap rule: `new_avg = old_avg + (new_colour - old_avg) / count`,
applied componentwise, where `count` is the updated write count. -/
def incrementalAverage (old c : RGBA) (count : Nat) : RGBA :=
  ⟨old.r + (c.r - old.r) / (count : ℚ),
   old.g + (c.g - old.g) / (count : ℚ),
   old.b + (c.b - old.b) / (count : ℚ),
   old.a + (c.a - old.a) / (count : ℚ)⟩

/-- In-place update of the stored voxel at `p` for an overlapping
`average`-rule insertion: bump the write count and fold the new colour
into the running mean. -/
def updateVoxelColour : List Voxel → Vec3 → RGBA → List Voxel
  | [], _, _ => []
  | v :: rest, p, c =>
    if v.position = p then
      { v with collisions := v.collisions + 1,
               colour := incrementalAverage v.colour c (v.collisions + 1) } :: rest
    else
      v :: updateVoxelColour rest p c

/-- Modelled from the spec: the adjacency offsets for which neighbour
relationships are registered.  These are the 20 offsets of the unit
cube having at least two non-zero components (12 edge + 8 corner
offsets) - exactly the directions needed by ambient-occlusion shading.
The unit tests pin this down: face directions such as `(-1,0,0)` are
never reported by `hasNeighbour` even when the face-adjacent voxel
exists, while edge and corner directions are. -/
def neighbourOffsets : List Vec3 :=
  [⟨1, 1, -1⟩, ⟨0, 1, -1⟩, ⟨-1, 1, -1⟩,
   ⟨1, 0, -1⟩, ⟨-1, 0, -1⟩,
   ⟨1, -1, -1⟩, ⟨0, -1, -1⟩, ⟨-1, -1, -1⟩,
   ⟨1, 1, 0⟩, ⟨-1, 1, 0⟩, ⟨1, -1, 0⟩, ⟨-1, -1, 0⟩,
   ⟨1, 1, 1⟩, ⟨0, 1, 1⟩, ⟨-1, 1, 1⟩,
   ⟨1, 0, 1⟩, ⟨-1, 0, 1⟩,
   ⟨1, -1, 1⟩, ⟨0, -1, 1⟩, ⟨-1, -1, 1⟩]

/-- Modelled from the spec: the bit index encoding a direction in the
neighbour bitmask - the base-3 encoding `9*(x+1) + 3*(y+1) + (z+1)` of
a unit-cube offset. -/
def neighbourIndex (d : Vec3) : Nat :=
  (9 * (d.x + 1) + 3 * (d.y + 1) + (d.z + 1)).toNat

/-- A direction: a unit-cube offset, every component in `[-1, 1]`. -/
def isDirection (d : Vec3) : Prop :=
  (-1 ≤ d.x ∧ d.x ≤ 1) ∧ (-1 ≤ d.y ∧ d.y ≤ 1) ∧ (-1 ≤ d.z ∧ d.z ≤ 1)

instance (d : Vec3) : Decidable (isDirection d) := by
  unfold isDirection
  infer_instance

/-- First-match lookup in the neighbour map, defaulting to the empty
bitmask `0` (JS `map.get(key) ?? { value: 0 }`). -/
def lookupNeighbourValue : List (Vec3 × Nat) → Vec3 → Nat
  | [], _ => 0
  | e :: rest, p => if e.1 = p then e.2 else lookupNeighbourValue rest p

/-- OR the bit `2 ^ b` into the bitmask stored at `key`, creating the
entry when absent (JS `Map` update: in-place on the first matching key,
append on a new key). -/
def mapSetOr : List (Vec3 × Nat) → Vec3 → Nat → List (Vec3 × Nat)
  | [], key, b => [(key, 2 ^ b)]
  | e :: rest, key, b =>
    if e.1 = key then (e.1, e.2 ||| 2 ^ b) :: rest
    else e :: mapSetOr rest key b

/-- Modelled from the spec: registration of the adjacency relationships
contributed by a newly inserted voxel at `p`: for each edge/corner
offset `o`, the position `p + o` gains the bit for the inverse
direction `-o` (recording that the voxel at `p` is its neighbour via
`-o`). -/
def updateNeighbours (nm : List (Vec3 × Nat)) (p : Vec3) : List (Vec3 × Nat) :=
  neighbourOffsets.foldl
    (fun acc o => mapSetOr acc (p.add o) (neighbourIndex o.negate)) nm

/-- Modelled from the spec: `addVoxel(position, colour)` - insert a new
voxel (registering its adjacency relationships when ambient occlusion
is enabled), or merge into an existing voxel per the configured overlap
rule (`first`: ignore the new colour; `average`: fold it into the
running mean). -/
def VoxelMesh.addVoxel (m : VoxelMesh) (p : Vec3) (c : RGBA) : VoxelMesh :=
  match findVoxel m.voxels p with
  | some _ =>
    match m.params.voxelOverlapRule with
    | .first => m
    | .average => { m with voxels := updateVoxelColour m.voxels p c }
  | none =>
    { m with
      voxels := m.voxels ++ [⟨p, c, 1⟩],
      neighbourMap :=
        if m.params.enableAmbientOcclusion then updateNeighbours m.neighbourMap p
        else m.neighbourMap }

/-- Modelled from the spec: `getNeighbours(position).value` - the
adjacency bitmask registered for `position` (empty mask when the
position has no entry). -/
def VoxelMesh.getNeighbours (m : VoxelMesh) (p : Vec3) : Nat :=
  lookupNeighbourValue m.neighbourMap p

/-- Modelled from the spec: `hasNeighbour(position, direction)` - test
of the direction's bit in the adjacency bitmask registered for
`position`. -/
def VoxelMesh.hasNeighbour (m : VoxelMesh) (p : Vec3) (d : Vec3) : Bool :=
  Nat.testBit (m.getNeighbours p) (neighbourIndex d)

/-- A `VoxelMesh` built by a sequence of `addVoxel` calls on a fresh
mesh (the only mutation path: voxels are never removed). -/
def buildVoxelMesh (params : VoxelMeshParams) (adds : List (Vec3 × RGBA)) : VoxelMesh :=
  adds.foldl (fun m pc => m.addVoxel pc.1 pc.2) (VoxelMesh.empty params)

/-- The neighbour-map invariant of an ambient-occlusion-enabled
`VoxelMesh`: a direction bit is registered for a position exactly when
the corresponding edge/corner-adjacent coordinate holds a voxel. -/
def NeighbourInvariant (m : VoxelMesh) : Prop :=
  ∀ (q : Vec3) (j : Nat),
    Nat.testBit (m.getNeighbours q) j = true ↔
      ∃ o ∈ neighbourOffsets, j = neighbourIndex o ∧ m.isVoxelAt (q.add o) = true

/- ===================== Renderer ===================== -/

/-- The mesh-type stage ladder (`enum MeshType`). -/
inductive MeshType where
  | None
  | TriangleMesh
  | VoxelMesh
  | BlockMesh
deriving DecidableEq

/-- The numeric value of a `MeshType` stage (TypeScript enums are
auto-numbered 0..3; `setModelToUse` compares the watermark against this
number). -/
def MeshType.toNat : MeshType → Nat
  | .None => 0
  | .TriangleMesh => 1
  | .VoxelMesh => 2
  | .BlockMesh => 3

/-- GPU texture handle, represented by the arguments it was created
from (`twgl.createTexture`): source path, whether min/mag filtering is
linear, and whether wrapping clamps to edge. -/
structure TextureHandle where
  src : String
  interpolationLinear : Bool
  extensionClamp : Bool
deriving DecidableEq

/-- Embedding of `SolidMaterial` (field `type` is carried by the
`Material` tag).  `interpolation: 'linear' | 'nearest'` and
`extension: 'clamp' | 'repeat'` are modelled as Booleans
(`interpolationLinear`, `extensionClamp`). -/
structure SolidMaterial where
  colour : RGBA
  canBeTextured : Bool
  needsAttention : Bool
deriving DecidableEq

/-- Embedding of `TexturedMaterial`. -/
structure TexturedMaterial where
  path : String
  interpolationLinear : Bool
  extensionClamp : Bool
  alphaPath : Option String
  alphaFactor : ℚ
  canBeTextured : Bool
  needsAttention : Bool
deriving DecidableEq

/-- The solid/textured material union (`SolidMaterial | TexturedMaterial`). -/
inductive Material where
  | solid (m : SolidMaterial)
  | textured (m : TexturedMaterial)
deriving DecidableEq

/-- The renderer-side stored material: either a solid material, or a
textured material together with its render addons (created GPU
texture, optional alpha texture, and the `useAlphaChannel` result -
the latter an external computation on the two image paths, represented
by those paths). -/
inductive StoredMaterial where
  | solid (m : SolidMaterial)
  | textured (m : TexturedMaterial) (texture : TextureHandle)
      (alpha : Option TextureHandle) (useAlphaChannel : Option (String × String))
deriving DecidableEq

/-- Texture creation for a textured material's main or alpha path
(`twgl.createTexture` with min/mag from `interpolation` and wrap from
`extension`). -/
def mkTexture (src : String) (interpolationLinear extensionClamp : Bool) : TextureHandle :=
  ⟨src, interpolationLinear, extensionClamp⟩

/-- The stored form of a textured material, as built identically by
`useMesh`, `recreateMaterialBuffer` and `updateMeshMaterialTexture`. -/
def storedTextured (t : TexturedMaterial) : StoredMaterial :=
  .textured t (mkTexture t.path t.interpolationLinear t.extensionClamp)
    (t.alphaPath.map (fun ap => mkTexture ap t.interpolationLinear t.extensionClamp))
    (t.alphaPath.map (fun ap => (t.path, ap)))

/-- The stored form of an incoming material, per the solid/textured
branch taken by `useMesh` and `recreateMaterialBuffer`. -/
def convertMaterial : Material → StoredMaterial
  | .solid m => .solid m
  | .textured t => storedTextured t

/-- One entry of `_materialBuffers`: stored material, GPU geometry
buffer (represented by the raw buffer data it was created from),
element count, and material name. -/
structure MaterialBufferEntry where
  material : StoredMaterial
  buffer : Nat
  numElements : Nat
  materialName : String
deriving DecidableEq

/-- First-match lookup in the material buffer map (JS `Map.get`). -/
def lookupEntry : List (String × MaterialBufferEntry) → String → Option MaterialBufferEntry
  | [], _ => none
  | e :: rest, k => if e.1 = k then some e.2 else lookupEntry rest k

/-- JS `Map.set`: replace the value at the first matching key, append
on a new key. -/
def mapSetEntry : List (String × MaterialBufferEntry) → String → MaterialBufferEntry →
    List (String × MaterialBufferEntry)
  | [], k, v => [(k, v)]
  | e :: rest, k, v =>
    if e.1 = k then (k, v) :: rest else e :: mapSetEntry rest k v

/-- A debug grid line buffer, represented by the
`DebugGeometryTemplates.gridX/gridY/gridZ` call that built it (scaled
dimensions and optional voxel-size spacing). -/
inductive GridBuffer where
  | gridX (dims : Vec3Q) (voxelSize : Option ℚ)
  | gridY (dims : Vec3Q) (voxelSize : Option ℚ)
  | gridZ (dims : Vec3Q) (voxelSize : Option ℚ)
deriving DecidableEq

/-- Input of `useMesh` (`RenderMeshParams.Output`): per-material raw
buffers (each with element count and material name) and the mesh's
bounding dimensions. -/
structure MeshBufferData where
  material : Material
  buffer : Nat
  numElements : Nat
  materialName : String

/-- Input record of `useMesh`. -/
structure MeshParams where
  buffers : List MeshBufferData
  dimensions : Vec3Q

/-- Input of `useVoxelMeshChunk` (`RenderNextVoxelMeshChunkParams.Output`):
one raw chunk buffer, the first-chunk flag, whether more voxels remain
to buffer, the voxel size, and the voxel mesh's integer dimensions. -/
structure VoxelChunkParams where
  buffer : Nat
  isFirstChunk : Bool
  moreVoxelsToBuffer : Bool
  voxelSize : ℚ
  dimensions : Vec3

/-- Input of `useBlockMeshChunk` (`RenderNextBlockMeshChunkParams.Output`). -/
structure BlockChunkParams where
  buffer : Nat
  isFirstChunk : Bool
  atlasTexturePath : String
  atlasSize : ℚ

/-- The mutable state of the `Renderer` singleton: the active display
stage (`_meshToUse`), the models-available watermark
(`_modelsAvailable`), the material buffer map, the optional voxel and
block chunk buffer lists, the voxel size and grid offset, the
all-voxel-chunks-received flag, the per-axis per-mesh-type grid
buffers, the block atlas, and the UI toggle flags. -/
structure RendererState where
  meshToUse : MeshType
  modelsAvailable : Nat
  materialBuffers : List (String × MaterialBufferEntry)
  voxelBuffer : Option (List Nat)
  blockBuffer : Option (List Nat)
  voxelSize : ℚ
  gridOffset : Vec3Q
  allVoxelChunks : Bool
  gridBuffersX : MeshType → Option GridBuffer
  gridBuffersY : MeshType → Option GridBuffer
  gridBuffersZ : MeshType → Option GridBuffer
  atlasTexture : Option String
  atlasSize : ℚ
  gridEnabled : Bool
  axesEnabled : Bool
  nightVisionEnabled : Bool
  lightingAvailable : Bool
  wireframeEnabled : Bool
  normalsEnabled : Bool
  devDebugEnabled : Bool

/-- Pointwise update of a per-mesh-type grid buffer table. -/
def setGrid (f : MeshType → Option GridBuffer) (k : MeshType) (v : Option GridBuffer) :
    MeshType → Option GridBuffer :=
  fun m => if m = k then v else f m

/-- The state established by the `Renderer` constructor: watermark 0,
empty material map, no chunk buffer lists, unit voxel size, zero grid
offset, empty grid tables, night vision forced on, all toggles off. -/
def initState : RendererState where
  meshToUse := .None
  modelsAvailable := 0
  materialBuffers := []
  voxelBuffer := none
  blockBuffer := none
  voxelSize := 1
  gridOffset := ⟨0, 0, 0⟩
  allVoxelChunks := false
  gridBuffersX := fun _ => none
  gridBuffersY := fun _ => none
  gridBuffersZ := fun _ => none
  atlasTexture := none
  atlasSize := 1
  gridEnabled := false
  axesEnabled := false
  nightVisionEnabled := true
  lightingAvailable := false
  wireframeEnabled := false
  normalsEnabled := false
  devDebugEnabled := false

namespace Renderer

/-- `setModelToUse(meshType)`: set the active display stage when the
watermark has reached it (`_modelsAvailable >= meshType`), otherwise do
nothing. -/
def setModelToUse (m : MeshType) (s : RendererState) : RendererState :=
  if m.toNat ≤ s.modelsAvailable then { s with meshToUse := m } else s

/-- `clearMesh()`: replace the material buffer map by a fresh empty
map, reset the watermark to 0 and the active stage to `None`. -/
def clearMesh (s : RendererState) : RendererState :=
  setModelToUse .None { s with materialBuffers := [], modelsAvailable := 0 }

/-- The entry built by `useMesh` for one incoming material buffer. -/
def mkUseMeshEntry (b : MeshBufferData) : MaterialBufferEntry :=
  { material := convertMaterial b.material,
    buffer := b.buffer,
    numElements := b.numElements,
    materialName := b.materialName }

/-- `useMesh(params)`: rebuild the material buffer map wholesale from
the incoming per-material buffers, rebuild the triangle-mesh grid
buffers from the mesh dimensions, set the watermark to 1
(`TriangleMesh`) and make `TriangleMesh` the active stage. -/
def useMesh (p : MeshParams) (s : RendererState) : RendererState :=
  let mbs := p.buffers.foldl (fun acc b => mapSetEntry acc b.materialName (mkUseMeshEntry b)) []
  setModelToUse .TriangleMesh
    { s with
      materialBuffers := mbs,
      gridBuffersX := setGrid s.gridBuffersX .TriangleMesh (some (.gridX p.dimensions none)),
      gridBuffersY := setGrid s.gridBuffersY .TriangleMesh (some (.gridY p.dimensions none)),
      gridBuffersZ := setGrid s.gridBuffersZ .TriangleMesh (some (.gridZ p.dimensions none)),
      modelsAvailable := 1 }

/-- `useVoxelMeshChunk(params)`: on a first chunk reset the voxel
buffer list to empty; update the all-chunks-received flag; append the
chunk's GPU buffer to the list when the list exists (`_voxelBuffer?.push`);
record the voxel size; then, on a first chunk only, recompute the grid
offset (`-0.5` on each axis whose dimension is odd, `0` when even),
rebuild the voxel-mesh grid buffers at `(dimensions + 1) * voxelSize`,
set the watermark to 2 (`VoxelMesh`) and make `VoxelMesh` the active
stage. -/
def useVoxelMeshChunk (p : VoxelChunkParams) (s : RendererState) : RendererState :=
  let vb := (if p.isFirstChunk then some [] else s.voxelBuffer).map (fun l => l ++ [p.buffer])
  let s1 : RendererState :=
    { s with
      allVoxelChunks := !p.moreVoxelsToBuffer,
      voxelBuffer := vb,
      voxelSize := p.voxelSize }
  if p.isFirstChunk then
    let scaled : Vec3Q :=
      ⟨((p.dimensions.x + 1 : ℤ) : ℚ) * p.voxelSize,
       ((p.dimensions.y + 1 : ℤ) : ℚ) * p.voxelSize,
       ((p.dimensions.z + 1 : ℤ) : ℚ) * p.voxelSize⟩
    setModelToUse .VoxelMesh
      { s1 with
        gridOffset :=
          ⟨if p.dimensions.x % 2 = 0 then 0 else -(1/2 : ℚ),
           if p.dimensions.y % 2 = 0 then 0 else -(1/2 : ℚ),
           if p.dimensions.z % 2 = 0 then 0 else -(1/2 : ℚ)⟩,
        gridBuffersX := setGrid s1.gridBuffersX .VoxelMesh (some (.gridX scaled (some p.voxelSize))),
        gridBuffersY := setGrid s1.gridBuffersY .VoxelMesh (some (.gridY scaled (some p.voxelSize))),
        gridBuffersZ := setGrid s1.gridBuffersZ .VoxelMesh (some (.gridZ scaled (some p.voxelSize))),
        modelsAvailable := 2 }
  else s1

/-- `useBlockMeshChunk(params)`: on a first chunk reset the block
buffer list to empty; append the chunk's GPU buffer when the list
exists (`_blockBuffer?.push`); then, on a first chunk only, create the
atlas texture, record the atlas size, copy the voxel-mesh y-grid buffer
to the block-mesh slot, set the watermark to 3 (`BlockMesh`) and make
`BlockMesh` the active stage. -/
def useBlockMeshChunk (p : BlockChunkParams) (s : RendererState) : RendererState :=
  let bb := (if p.isFirstChunk then some [] else s.blockBuffer).map (fun l => l ++ [p.buffer])
  let s1 : RendererState := { s with blockBuffer := bb }
  if p.isFirstChunk then
    setModelToUse .BlockMesh
      { s1 with
        atlasTexture := some p.atlasTexturePath,
        atlasSize := p.atlasSize,
        gridBuffersY := setGrid s1.gridBuffersY .BlockMesh (s1.gridBuffersY .VoxelMesh),
        modelsAvailable := 3 }
  else s1

/-- `recreateMaterialBuffer(materialName, material)`: `ASSERT` that an
entry for the name already exists (modelled by `none` = fatal
assertion), then replace the entry's stored material by the converted
incoming material, keeping the old geometry buffer and element count. -/
def recreateMaterialBuffer (name : String) (mat : Material) (s : RendererState) :
    Option RendererState :=
  match lookupEntry s.materialBuffers name with
  | none => none
  | some old =>
    some { s with
      materialBuffers := mapSetEntry s.materialBuffers name
        { material := convertMaterial mat,
          buffer := old.buffer,
          numElements := old.numElements,
          materialName := name } }

/-- `updateMeshMaterialTexture(materialName, material)`: iterate the
material buffer map and, for entries whose `materialName` matches,
replace only the stored material by the textured incoming material.
No assertion is made; a name with no entry leaves the map unchanged. -/
def updateMeshMaterialTexture (name : String) (mat : TexturedMaterial) (s : RendererState) :
    RendererState :=
  { s with
    materialBuffers := s.materialBuffers.map (fun e =>
      if e.2.materialName = name then (e.1, { e.2 with material := storedTextured mat }) else e) }

/-- `setLightingAvailable(isAvailable)`. -/
def setLightingAvailable (b : Bool) (s : RendererState) : RendererState :=
  { s with lightingAvailable := b,
           nightVisionEnabled := if !b then true else s.nightVisionEnabled }

/-- `toggleIsNightVisionEnabled()`. -/
def toggleIsNightVisionEnabled (s : RendererState) : RendererState :=
  let s1 := { s with nightVisionEnabled := !s.nightVisionEnabled }
  if !s1.lightingAvailable then { s1 with nightVisionEnabled := true } else s1

end Renderer

/-- One call to a public `Renderer` state mutator. -/
inductive RenderOp where
  | useMesh (p : MeshParams)
  | useVoxelMeshChunk (p : VoxelChunkParams)
  | useBlockMeshChunk (p : BlockChunkParams)
  | clearMesh
  | setModelToUse (m : MeshType)
  | recreateMaterialBuffer (name : String) (mat : Material)
  | updateMeshMaterialTexture (name : String) (mat : TexturedMaterial)
  | setLightingAvailable (b : Bool)
  | toggleIsGridEnabled
  | toggleIsAxesEnabled
  | toggleIsNightVisionEnabled
  | toggleIsWireframeEnabled
  | toggleIsNormalsEnabled
  | toggleIsDevDebugEnabled

/-- Apply one mutator to the renderer state; `none` models a fatal
assertion failure (`ASSERT`), which aborts the run. -/
def stepOp : RenderOp → RendererState → Option RendererState
  | .useMesh p, s => some (Renderer.useMesh p s)
  | .useVoxelMeshChunk p, s => some (Renderer.useVoxelMeshChunk p s)
  | .useBlockMeshChunk p, s => some (Renderer.useBlockMeshChunk p s)
  | .clearMesh, s => some (Renderer.clearMesh s)
  | .setModelToUse m, s => some (Renderer.setModelToUse m s)
  | .recreateMaterialBuffer n m, s => Renderer.recreateMaterialBuffer n m s
  | .updateMeshMaterialTexture n m, s => some (Renderer.updateMeshMaterialTexture n m s)
  | .setLightingAvailable b, s => some (Renderer.setLightingAvailable b s)
  | .toggleIsGridEnabled, s => some { s with gridEnabled := !s.gridEnabled }
  | .toggleIsAxesEnabled, s => some { s with axesEnabled := !s.axesEnabled }
  | .toggleIsNightVisionEnabled, s => some (Renderer.toggleIsNightVisionEnabled s)
  | .toggleIsWireframeEnabled, s => some { s with wireframeEnabled := !s.wireframeEnabled }
  | .toggleIsNormalsEnabled, s => some { s with normalsEnabled := !s.normalsEnabled }
  | .toggleIsDevDebugEnabled, s => some { s with devDebugEnabled := !s.devDebugEnabled }

/-- Run a sequence of mutators from the freshly constructed renderer,
aborting on assertion failure. -/
def runOps (ops : List RenderOp) : Option RendererState :=
  ops.foldlM (fun s op => stepOp op s) initState

/- ===================== Concrete sample data ===================== -/

/-- The voxel mesh built by the repository's `Voxel neighbours` unit
test: one voxel at `(1,2,3)`, overlap rule `first`, ambient occlusion
enabled. -/
def mesh₁ : VoxelMesh :=
  buildVoxelMesh ⟨.first, true⟩ [(⟨1, 2, 3⟩, RGBAColours.WHITE)]

/-- A concrete first voxel chunk (odd dimensions). -/
def vp₀ : VoxelChunkParams := ⟨0, true, true, 1, ⟨1, 1, 1⟩⟩

/-- A concrete first voxel chunk with even dimensions. -/
def vpEven : VoxelChunkParams := ⟨0, true, true, 1, ⟨2, 2, 2⟩⟩

/-- A concrete non-first voxel chunk. -/
def vpNF : VoxelChunkParams := ⟨5, false, false, 3, ⟨4, 4, 4⟩⟩

/-- A concrete non-first block chunk. -/
def bpNF : BlockChunkParams := ⟨7, false, "atlas.png", 16⟩

/-- A concrete `useMesh` input with no material buffers. -/
def mpEmpty : MeshParams := ⟨[], ⟨1, 1, 1⟩⟩

/-- The renderer state after streaming one first voxel chunk into the
fresh renderer. -/
def afterFirstVoxelChunk : RendererState :=
  Renderer.useVoxelMeshChunk vp₀ initState

/-- A concrete textured material. -/
def tm₀ : TexturedMaterial := ⟨"t.png", true, true, none, 1, true, false⟩

/-- A concrete solid material. -/
def sm₀ : SolidMaterial := ⟨⟨1, 0, 0, 1⟩, false, false⟩

/-- Model validation: the expectations of the repository's
`Voxel neighbours` unit test hold of the model. -/
theorem model_validation_voxel_neighbours :
    mesh₁.getNeighbours ⟨1,2,3⟩ = 0 ∧
      mesh₁.hasNeighbour ⟨2,2,3⟩ ⟨-1,0,0⟩ = false ∧
      mesh₁.hasNeighbour ⟨2,3,3⟩ ⟨-1,-1,0⟩ = true ∧
      mesh₁.hasNeighbour ⟨0,1,3⟩ ⟨1,1,0⟩ = true ∧
      mesh₁.hasNeighbour ⟨2,1,4⟩ ⟨-1,1,-1⟩ = true ∧
      mesh₁.hasNeighbour ⟨0,2,4⟩ ⟨1,0,-1⟩ = true := by
  refine ⟨by decide, by decide, by decide, by decide, by decide, by decide⟩

/-- Model validation: the expectations of the repository's `Add voxel`
unit test hold of the model. -/
theorem model_validation_add_voxel :
    mesh₁.isVoxelAt ⟨1,2,3⟩ = true ∧ mesh₁.isVoxelAt ⟨2,3,3⟩ = false := by
  refine ⟨by decide, by decide⟩

/-- Model validation: the repository's `Voxel overlap first` unit test
holds of the model. -/
theorem model_validation_overlap_first :
    ((buildVoxelMesh ⟨.first, false⟩
        [(⟨1,2,3⟩, RGBAColours.RED), (⟨1,2,3⟩, RGBAColours.BLUE)]).getVoxelAt
        ⟨1,2,3⟩).map Voxel.colour = some RGBAColours.RED := by
  decide

/-- Model validation: the repository's `Voxel overlap average` unit
test holds of the model. -/
theorem model_validation_overlap_average :
    ((buildVoxelMesh ⟨.average, false⟩
        [(⟨1,2,3⟩, ⟨1, 1/2, 1/4, 1⟩), (⟨1,2,3⟩, ⟨0, 1/2, 3/4, 1⟩)]).getVoxelAt
        ⟨1,2,3⟩).map Voxel.colour = some ⟨1/2, 1/2, 1/2, 1⟩ := by
  simp only [buildVoxelMesh, VoxelMesh.empty, VoxelMesh.addVoxel, VoxelMesh.getVoxelAt,
    findVoxel, updateVoxelColour, incrementalAverage, List.foldl]
  norm_num

/-- Model validation: concrete evaluation of the renderer after a
first voxel chunk. -/
theorem model_validation_renderer_first_chunk :
    afterFirstVoxelChunk.modelsAvailable = 2 ∧
      afterFirstVoxelChunk.voxelBuffer = some [0] ∧
      afterFirstVoxelChunk.meshToUse = MeshType.VoxelMesh ∧
      (Renderer.useVoxelMeshChunk vpEven initState).gridOffset = ⟨0,0,0⟩ ∧
      (Renderer.useVoxelMeshChunk vp₀ initState).gridOffset = ⟨-(1/2), -(1/2), -(1/2)⟩ := by
  refine ⟨by decide, by decide, by decide, by decide, rfl⟩

/- ===================== VoxelMesh lemmas ===================== -/

theorem lookupNeighbourValue_mapSetOr (nm : List (Vec3 × Nat)) (k q : Vec3) (b : Nat) :
    lookupNeighbourValue (mapSetOr nm k b) q =
      if q = k then lookupNeighbourValue nm q ||| 2 ^ b else lookupNeighbourValue nm q := by
  induction nm with
  | nil =>
    by_cases h : q = k
    · subst h
      simp [mapSetOr, lookupNeighbourValue]
    · simp [mapSetOr, lookupNeighbourValue, h, Ne.symm h]
  | cons e rest ih =>
    obtain ⟨ek, ev⟩ := e
    by_cases hek : ek = k
    · subst hek
      by_cases hq : ek = q
      · subst hq
        simp [mapSetOr, lookupNeighbourValue]
      · simp [mapSetOr, lookupNeighbourValue, hq, Ne.symm hq]
    · by_cases hq : ek = q
      · subst hq
        have hqk : ¬(ek = k) := hek
        simp [mapSetOr, lookupNeighbourValue, hek, hqk]
      · simp [mapSetOr, lookupNeighbourValue, hek, hq, ih]

theorem testBit_lookup_foldl (L : List Vec3) (nm : List (Vec3 × Nat)) (p q : Vec3) (j : Nat) :
    Nat.testBit
        (lookupNeighbourValue
          (L.foldl (fun acc o => mapSetOr acc (p.add o) (neighbourIndex o.negate)) nm) q) j = true ↔
      Nat.testBit (lookupNeighbourValue nm q) j = true ∨
        ∃ o ∈ L, q = p.add o ∧ j = neighbourIndex o.negate := by
  induction L generalizing nm with
  | nil => simp
  | cons o L ih =>
    rw [List.foldl_cons, ih, lookupNeighbourValue_mapSetOr]
    by_cases hq : q = p.add o
    · rw [if_pos hq]
      simp only [Nat.testBit_or, Nat.testBit_two_pow, Bool.or_eq_true, decide_eq_true_eq]
      constructor
      · rintro ((h | h) | ⟨o', ho', hqo', hj⟩)
        · exact Or.inl h
        · exact Or.inr ⟨o, List.mem_cons_self o L, hq, h.symm⟩
        · exact Or.inr ⟨o', List.mem_cons_of_mem o ho', hqo', hj⟩
      · rintro (h | ⟨o', ho', hqo', hj⟩)
        · exact Or.inl (Or.inl h)
        · rcases List.mem_cons.mp ho' with rfl | ho'
          · exact Or.inl (Or.inr hj.symm)
          · exact Or.inr ⟨o', ho', hqo', hj⟩
    · rw [if_neg hq]
      constructor
      · rintro (h | ⟨o', ho', hqo', hj⟩)
        · exact Or.inl h
        · exact Or.inr ⟨o', List.mem_cons_of_mem o ho', hqo', hj⟩
      · rintro (h | ⟨o', ho', hqo', hj⟩)
        · exact Or.inl h
        · rcases List.mem_cons.mp ho' with rfl | ho'
          · exact absurd hqo' hq
          · exact Or.inr ⟨o', ho', hqo', hj⟩

theorem neighbourOffsets_negate_mem : ∀ o ∈ neighbourOffsets, o.negate ∈ neighbourOffsets := by
  decide

theorem neighbourOffsets_isDirection : ∀ o ∈ neighbourOffsets, isDirection o := by
  decide

theorem Vec3.negate_negate (o : Vec3) : o.negate.negate = o := by
  cases o; simp [Vec3.negate]

theorem Vec3.eq_add_negate_iff (p q u : Vec3) : p = q.add u ↔ q = p.add u.negate := by
  cases p; cases q; cases u
  simp only [Vec3.add, Vec3.negate, Vec3.mk.injEq]
  omega

theorem neighbourIndex_inj {d e : Vec3} (hd : isDirection d) (he : isDirection e)
    (h : neighbourIndex d = neighbourIndex e) : d = e := by
  obtain ⟨dx, dy, dz⟩ := d
  obtain ⟨ex, ey, ez⟩ := e
  simp only [isDirection] at hd he
  simp only [neighbourIndex] at h
  obtain ⟨⟨hdx1, hdx2⟩, ⟨hdy1, hdy2⟩, hdz1, hdz2⟩ := hd
  obtain ⟨⟨hex1, hex2⟩, ⟨hey1, hey2⟩, hez1, hez2⟩ := he
  simp only [Vec3.mk.injEq]
  omega

theorem findVoxel_append (l : List Voxel) (v : Voxel) (p : Vec3) :
    findVoxel (l ++ [v]) p =
      match findVoxel l p with
      | some w => some w
      | none => if v.position = p then some v else none := by
  induction l with
  | nil => simp [findVoxel]
  | cons w rest ih =>
    by_cases h : w.position = p <;> simp [findVoxel, h, ih]

theorem findVoxel_updateVoxelColour_isSome (l : List Voxel) (p : Vec3) (c : RGBA) (q : Vec3) :
    (findVoxel (updateVoxelColour l p c) q).isSome = (findVoxel l q).isSome := by
  induction l with
  | nil => simp [updateVoxelColour]
  | cons v rest ih =>
    by_cases hp : v.position = p
    · by_cases hq : v.position = q
      · have hpq : p = q := hp.symm.trans hq
        simp [updateVoxelColour, findVoxel, hp, hq, hpq]
      · have hpq : ¬(p = q) := fun hh => hq (hp.trans hh)
        simp [updateVoxelColour, findVoxel, hp, hq, hpq]
    · by_cases hq : v.position = q
      · have hqp : ¬(q = p) := fun hh => hp (hq.trans hh)
        simp [updateVoxelColour, findVoxel, hp, hq, hqp]
      · simp [updateVoxelColour, findVoxel, hp, hq, ih]

theorem addVoxel_params (m : VoxelMesh) (p : Vec3) (c : RGBA) :
    (m.addVoxel p c).params = m.params := by
  unfold VoxelMesh.addVoxel
  cases findVoxel m.voxels p with
  | none => rfl
  | some w =>
    cases m.params.voxelOverlapRule <;> rfl

theorem empty_inv (params : VoxelMeshParams) : NeighbourInvariant (VoxelMesh.empty params) := by
  intro q j
  simp [VoxelMesh.empty, VoxelMesh.getNeighbours, VoxelMesh.isVoxelAt, lookupNeighbourValue,
    findVoxel]

theorem addVoxel_inv (m : VoxelMesh) (p : Vec3) (c : RGBA)
    (hao : m.params.enableAmbientOcclusion = true)
    (h : NeighbourInvariant m) : NeighbourInvariant (m.addVoxel p c) := by
  intro q j
  unfold VoxelMesh.addVoxel
  cases hfind : findVoxel m.voxels p with
  | some w =>
    cases hrule : m.params.voxelOverlapRule with
    | first => simpa using h q j
    | average =>
      have h' := h q j
      simp only [VoxelMesh.getNeighbours, VoxelMesh.isVoxelAt] at h' ⊢
      constructor
      · intro hb
        rcases h'.mp hb with ⟨o, ho, hj, hv⟩
        exact ⟨o, ho, hj, by rw [findVoxel_updateVoxelColour_isSome]; exact hv⟩
      · rintro ⟨o, ho, hj, hv⟩
        rw [findVoxel_updateVoxelColour_isSome] at hv
        exact h'.mpr ⟨o, ho, hj, hv⟩
  | none =>
    simp only [VoxelMesh.getNeighbours, VoxelMesh.isVoxelAt, hao, if_pos]
    unfold updateNeighbours
    rw [testBit_lookup_foldl]
    constructor
    · rintro (hb | ⟨o, ho, hqo, hj⟩)
      · rcases (h q j).mp hb with ⟨o, ho, hj, hv⟩
        refine ⟨o, ho, hj, ?_⟩
        rw [findVoxel_append]
        simp only [VoxelMesh.isVoxelAt] at hv
        cases hfv : findVoxel m.voxels (q.add o) with
        | some w => simp
        | none => rw [hfv] at hv; simp at hv
      · refine ⟨o.negate, neighbourOffsets_negate_mem o ho, hj, ?_⟩
        rw [findVoxel_append]
        have hp : p = q.add o.negate := by
          rw [← Vec3.eq_add_negate_iff]
          exact hqo
        cases hfv : findVoxel m.voxels (q.add o.negate) with
        | some w => simp
        | none => simp [← hp]
    · rintro ⟨u, hu, hj, hv⟩
      rw [findVoxel_append] at hv
      cases hfv : findVoxel m.voxels (q.add u) with
      | some w =>
        exact Or.inl ((h q j).mpr ⟨u, hu, hj, by simp [VoxelMesh.isVoxelAt, hfv]⟩)
      | none =>
        rw [hfv] at hv
        simp only [Option.isSome] at hv
        by_cases hpu : p = q.add u
        · refine Or.inr ⟨u.negate, neighbourOffsets_negate_mem u hu, ?_, ?_⟩
          · rw [Vec3.eq_add_negate_iff] at hpu
            exact hpu
          · rw [Vec3.negate_negate]
            exact hj
        · rw [if_neg hpu] at hv
          simp at hv

theorem buildVoxelMesh_inv (params : VoxelMeshParams)
    (hao : params.enableAmbientOcclusion = true) (adds : List (Vec3 × RGBA)) :
    NeighbourInvariant (buildVoxelMesh params adds) := by
  unfold buildVoxelMesh
  have main : ∀ (l : List (Vec3 × RGBA)) (m : VoxelMesh),
      m.params = params → NeighbourInvariant m →
      NeighbourInvariant (l.foldl (fun m pc => m.addVoxel pc.1 pc.2) m) ∧
        (l.foldl (fun m pc => m.addVoxel pc.1 pc.2) m).params = params := by
    intro l
    induction l with
    | nil => exact fun m hp hi => ⟨hi, hp⟩
    | cons pc rest ih =>
      intro m hp hi
      rw [List.foldl_cons]
      exact ih (m.addVoxel pc.1 pc.2) (by rw [addVoxel_params, hp])
        (addVoxel_inv m pc.1 pc.2 (by rw [hp, hao]) hi)
  exact (main adds (VoxelMesh.empty params) rfl (empty_inv params)).1

theorem hasNeighbour_char (params : VoxelMeshParams)
    (hao : params.enableAmbientOcclusion = true) (adds : List (Vec3 × RGBA))
    (p d : Vec3) (hd : isDirection d) :
    (buildVoxelMesh params adds).hasNeighbour p d = true ↔
      d ∈ neighbourOffsets ∧ (buildVoxelMesh params adds).isVoxelAt (p.add d) = true := by
  unfold VoxelMesh.hasNeighbour
  rw [buildVoxelMesh_inv params hao adds p (neighbourIndex d)]
  constructor
  · rintro ⟨o, ho, hj, hv⟩
    have : d = o := neighbourIndex_inj hd (neighbourOffsets_isDirection o ho) hj
    subst this
    exact ⟨ho, hv⟩
  · rintro ⟨hmem, hv⟩
    exact ⟨d, hmem, rfl, hv⟩

/- ===================== Claims C1, C5, C6 ===================== -/

/-- C1 counterexample: the claim states `hasNeighbour(p, d)` is never
true when no voxel is stored at `p`.  The repository's own
`Voxel neighbours` unit test refutes this: with the single voxel at
`(1,2,3)`, the test expects `hasNeighbour((2,3,3), (-1,-1,0))` to be
true, yet no voxel is stored at `(2,3,3)`. -/
theorem c1_counterexample :
    mesh₁.hasNeighbour ⟨2, 3, 3⟩ ⟨-1, -1, 0⟩ = true ∧ mesh₁.isVoxelAt ⟨2, 3, 3⟩ = false := by
  decide

/-- C1 (amended): for any mesh built by `addVoxel` calls with ambient
occlusion enabled, `hasNeighbour(p, d)` for a unit-cube direction `d`
is true iff `d` is one of the 20 edge/corner adjacency offsets and a
voxel exists at `p + d`.  Registration happens when the voxel at
`p + d` is inserted; a voxel at `p` itself is not required. -/
theorem c1_hasNeighbour_characterisation (rule : VoxelOverlapRule)
    (adds : List (Vec3 × RGBA)) (p d : Vec3) (hd : isDirection d) :
    (buildVoxelMesh ⟨rule, true⟩ adds).hasNeighbour p d = true ↔
      d ∈ neighbourOffsets ∧
        (buildVoxelMesh ⟨rule, true⟩ adds).isVoxelAt (p.add d) = true :=
  hasNeighbour_char ⟨rule, true⟩ rfl adds p d hd

/-- Witness for the amended C1 theorem at the unit test's data. -/
theorem c1_witness :
    isDirection ⟨1, 0, -1⟩ ∧
      ((buildVoxelMesh ⟨VoxelOverlapRule.first, true⟩
            [(⟨1, 2, 3⟩, RGBAColours.WHITE)]).hasNeighbour ⟨0, 2, 4⟩ ⟨1, 0, -1⟩ = true ↔
        ⟨1, 0, -1⟩ ∈ neighbourOffsets ∧
          (buildVoxelMesh ⟨VoxelOverlapRule.first, true⟩
              [(⟨1, 2, 3⟩, RGBAColours.WHITE)]).isVoxelAt
            (Vec3.add ⟨0, 2, 4⟩ ⟨1, 0, -1⟩) = true) :=
  ⟨by decide,
   c1_hasNeighbour_characterisation .first [(⟨1, 2, 3⟩, RGBAColours.WHITE)]
     ⟨0, 2, 4⟩ ⟨1, 0, -1⟩ (by decide)⟩

/-- C5: overlap resolution.  After two `addVoxel` calls at the same
coordinate, the `first` rule keeps the first colour and the `average`
rule yields the componentwise mean of the two colours (the running
incremental mean specialises to the mean for two writes). -/
theorem c5_overlap_rules (ao : Bool) (p : Vec3) (c1 c2 : RGBA) :
    ((((VoxelMesh.empty ⟨.first, ao⟩).addVoxel p c1).addVoxel p c2).getVoxelAt p).map
        Voxel.colour = some c1 ∧
      ((((VoxelMesh.empty ⟨.average, ao⟩).addVoxel p c1).addVoxel p c2).getVoxelAt p).map
        Voxel.colour =
        some ⟨(c1.r + c2.r) / 2, (c1.g + c2.g) / 2, (c1.b + c2.b) / 2, (c1.a + c2.a) / 2⟩ := by
  constructor
  · simp [VoxelMesh.empty, VoxelMesh.addVoxel, VoxelMesh.getVoxelAt, findVoxel]
  · simp [VoxelMesh.empty, VoxelMesh.addVoxel, VoxelMesh.getVoxelAt, findVoxel,
      updateVoxelColour, incrementalAverage, RGBA.mk.injEq]
    refine ⟨by ring, by ring, by ring, by ring⟩

/-- C6 counterexample: the claim states `hasNeighbour(q, d)` is false
for any pair whose adjacency was never produced by a prior
`getNeighbours` evaluation.  `mesh₁` is built by `addVoxel` alone -
no `getNeighbours` evaluation occurs anywhere in its construction (in
this model `getNeighbours` is read-only; adjacency is registered by
`addVoxel`) - yet `hasNeighbour((0,1,3), (1,1,0))` is already true,
exactly as the repository's unit test expects. -/
theorem c6_counterexample :
    mesh₁.hasNeighbour ⟨0, 1, 3⟩ ⟨1, 1, 0⟩ = true ∧ mesh₁.isVoxelAt ⟨0, 1, 3⟩ = false := by
  decide

/-- C6 (amended): `hasNeighbour(q, d)` is false for every unit-cube
direction `d` outside the 20-offset edge/corner adjacency set (in
particular for all six face directions), even when a voxel exists at
`q + d`; within the set, adjacency is determined by occupancy, not by
which `getNeighbours` evaluations happened. -/
theorem c6_face_directions_unregistered (rule : VoxelOverlapRule)
    (adds : List (Vec3 × RGBA)) (q d : Vec3) (hd : isDirection d)
    (hmem : d ∉ neighbourOffsets) :
    (buildVoxelMesh ⟨rule, true⟩ adds).hasNeighbour q d = false := by
  cases hb : (buildVoxelMesh ⟨rule, true⟩ adds).hasNeighbour q d with
  | false => rfl
  | true =>
    exact absurd ((hasNeighbour_char ⟨rule, true⟩ rfl adds q d hd).mp hb).1 hmem

/-- Witness for the amended C6 theorem at the unit test's data: the
face direction `(-1,0,0)` from `(2,2,3)` is never a neighbour even
though the voxel at `(1,2,3)` exists. -/
theorem c6_witness :
    isDirection ⟨-1, 0, 0⟩ ∧ (⟨-1, 0, 0⟩ : Vec3) ∉ neighbourOffsets ∧
      (buildVoxelMesh ⟨VoxelOverlapRule.first, true⟩
          [(⟨1, 2, 3⟩, RGBAColours.WHITE)]).hasNeighbour ⟨2, 2, 3⟩ ⟨-1, 0, 0⟩ = false :=
  ⟨by decide, by decide,
   c6_face_directions_unregistered .first [(⟨1, 2, 3⟩, RGBAColours.WHITE)]
     ⟨2, 2, 3⟩ ⟨-1, 0, 0⟩ (by decide) (by decide)⟩

/- ===================== Renderer lemmas ===================== -/

theorem setModelToUse_modelsAvailable (m : MeshType) (s : RendererState) :
    (Renderer.setModelToUse m s).modelsAvailable = s.modelsAvailable := by
  unfold Renderer.setModelToUse
  split <;> rfl

theorem setModelToUse_of_le (m : MeshType) (s : RendererState)
    (h : m.toNat ≤ s.modelsAvailable) :
    Renderer.setModelToUse m s = { s with meshToUse := m } := by
  unfold Renderer.setModelToUse
  rw [if_pos h]

theorem setModelToUse_of_gt (m : MeshType) (s : RendererState)
    (h : s.modelsAvailable < m.toNat) :
    Renderer.setModelToUse m s = s := by
  unfold Renderer.setModelToUse
  rw [if_neg (by omega)]

theorem stepOp_meshToUse_le (op : RenderOp) (s s' : RendererState)
    (hstep : stepOp op s = some s') (h : s.meshToUse.toNat ≤ s.modelsAvailable) :
    s'.meshToUse.toNat ≤ s'.modelsAvailable := by
  cases op with
  | useMesh p =>
    simp only [stepOp, Option.some.injEq] at hstep
    subst hstep
    unfold Renderer.useMesh
    rw [setModelToUse_of_le _ _ Nat.le.refl]
    exact Nat.le.refl
  | useVoxelMeshChunk p =>
    simp only [stepOp, Option.some.injEq] at hstep
    subst hstep
    unfold Renderer.useVoxelMeshChunk
    by_cases hf : p.isFirstChunk = true
    · rw [hf]
      simp only [if_true]
      rw [setModelToUse_of_le _ _ Nat.le.refl]
      exact Nat.le.refl
    · simp only [Bool.not_eq_true] at hf
      rw [hf]
      simpa using h
  | useBlockMeshChunk p =>
    simp only [stepOp, Option.some.injEq] at hstep
    subst hstep
    unfold Renderer.useBlockMeshChunk
    by_cases hf : p.isFirstChunk = true
    · rw [hf]
      simp only [if_true]
      rw [setModelToUse_of_le _ _ Nat.le.refl]
      exact Nat.le.refl
    · simp only [Bool.not_eq_true] at hf
      rw [hf]
      simpa using h
  | clearMesh =>
    simp only [stepOp, Option.some.injEq] at hstep
    subst hstep
    unfold Renderer.clearMesh
    rw [setModelToUse_of_le _ _ Nat.le.refl]
    exact Nat.le.refl
  | setModelToUse m =>
    simp only [stepOp, Option.some.injEq] at hstep
    subst hstep
    by_cases hm : m.toNat ≤ s.modelsAvailable
    · rw [setModelToUse_of_le _ _ hm]
      exact hm
    · rw [setModelToUse_of_gt _ _ (by omega)]
      exact h
  | recreateMaterialBuffer n mat =>
    simp only [stepOp] at hstep
    unfold Renderer.recreateMaterialBuffer at hstep
    cases hl : lookupEntry s.materialBuffers n with
    | none => rw [hl] at hstep; exact absurd hstep (by simp)
    | some old =>
      rw [hl] at hstep
      simp only [Option.some.injEq] at hstep
      subst hstep
      exact h
  | updateMeshMaterialTexture n mat =>
    simp only [stepOp, Option.some.injEq] at hstep
    subst hstep
    exact h
  | setLightingAvailable b =>
    simp only [stepOp, Option.some.injEq] at hstep
    subst hstep
    exact h
  | toggleIsGridEnabled =>
    simp only [stepOp, Option.some.injEq] at hstep
    subst hstep
    exact h
  | toggleIsAxesEnabled =>
    simp only [stepOp, Option.some.injEq] at hstep
    subst hstep
    exact h
  | toggleIsNightVisionEnabled =>
    simp only [stepOp, Option.some.injEq] at hstep
    subst hstep
    unfold Renderer.toggleIsNightVisionEnabled
    dsimp only
    split <;> exact h
  | toggleIsWireframeEnabled =>
    simp only [stepOp, Option.some.injEq] at hstep
    subst hstep
    exact h
  | toggleIsNormalsEnabled =>
    simp only [stepOp, Option.some.injEq] at hstep
    subst hstep
    exact h
  | toggleIsDevDebugEnabled =>
    simp only [stepOp, Option.some.injEq] at hstep
    subst hstep
    exact h

theorem runOps_inv (ops : List RenderOp) (s : RendererState) (h : runOps ops = some s) :
    s.meshToUse.toNat ≤ s.modelsAvailable := by
  have main : ∀ (l : List RenderOp) (s0 : RendererState),
      s0.meshToUse.toNat ≤ s0.modelsAvailable →
      ∀ s1, List.foldlM (fun s op => stepOp op s) s0 l = some s1 →
        s1.meshToUse.toNat ≤ s1.modelsAvailable := by
    intro l
    induction l with
    | nil =>
      intro s0 h0 s1 h1
      simp only [List.foldlM_nil, pure, Option.some.injEq] at h1
      subst h1
      exact h0
    | cons op rest ih =>
      intro s0 h0 s1 h1
      rw [List.foldlM_cons] at h1
      cases hstep : stepOp op s0 with
      | none =>
        rw [hstep] at h1
        exact absurd h1 (by simp [Bind.bind, Option.bind])
      | some s2 =>
        rw [hstep] at h1
        exact ih s2 (stepOp_meshToUse_le op s0 s2 hstep h0) s1 h1
  exact main ops initState (by decide) s h

/- ===================== Claims C2, C3, C4 ===================== -/

/-- C2 counterexample: the claim states the models-available watermark
never decreases except via `clearMesh`, and in particular that
`useMesh` does not lower it.  But `useMesh` assigns the watermark the
constant 1: after a first voxel chunk (watermark `VoxelMesh` = 2),
`useMesh` lowers it to `TriangleMesh` = 1. -/
theorem c2_counterexample :
    afterFirstVoxelChunk.modelsAvailable = 2 ∧
      (Renderer.useMesh mpEmpty afterFirstVoxelChunk).modelsAvailable = 1 ∧
      (Renderer.useMesh mpEmpty afterFirstVoxelChunk).modelsAvailable <
        afterFirstVoxelChunk.modelsAvailable := by
  refine ⟨by decide, by decide, by decide⟩

/-- C2 (amended): the watermark after each operation is fully
determined: `clearMesh` sets it to 0 (`None`), `useMesh` sets it to 1
(`TriangleMesh`), a first voxel chunk sets it to 2 (`VoxelMesh`), a
first block chunk sets it to 3 (`BlockMesh`), and every other
operation leaves it unchanged.  It therefore decreases whenever an
earlier pipeline stage is re-run from a later stage, not only via
`clearMesh`. -/
theorem c2_watermark_effect (op : RenderOp) (s s' : RendererState)
    (h : stepOp op s = some s') :
    s'.modelsAvailable =
      match op with
      | .clearMesh => 0
      | .useMesh _ => 1
      | .useVoxelMeshChunk p => if p.isFirstChunk then 2 else s.modelsAvailable
      | .useBlockMeshChunk p => if p.isFirstChunk then 3 else s.modelsAvailable
      | _ => s.modelsAvailable := by
  cases op with
  | useMesh p =>
    simp only [stepOp, Option.some.injEq] at h
    subst h
    simp [Renderer.useMesh, setModelToUse_modelsAvailable]
  | useVoxelMeshChunk p =>
    simp only [stepOp, Option.some.injEq] at h
    subst h
    by_cases hf : p.isFirstChunk = true
    · simp [Renderer.useVoxelMeshChunk, setModelToUse_modelsAvailable, hf]
    · simp only [Bool.not_eq_true] at hf
      simp [Renderer.useVoxelMeshChunk, hf]
  | useBlockMeshChunk p =>
    simp only [stepOp, Option.some.injEq] at h
    subst h
    by_cases hf : p.isFirstChunk = true
    · simp [Renderer.useBlockMeshChunk, setModelToUse_modelsAvailable, hf]
    · simp only [Bool.not_eq_true] at hf
      simp [Renderer.useBlockMeshChunk, hf]
  | clearMesh =>
    simp only [stepOp, Option.some.injEq] at h
    subst h
    simp [Renderer.clearMesh, setModelToUse_modelsAvailable]
  | setModelToUse m =>
    simp only [stepOp, Option.some.injEq] at h
    subst h
    simp [setModelToUse_modelsAvailable]
  | recreateMaterialBuffer n mat =>
    simp only [stepOp] at h
    unfold Renderer.recreateMaterialBuffer at h
    cases hl : lookupEntry s.materialBuffers n with
    | none => rw [hl] at h; exact absurd h (by simp)
    | some old =>
      rw [hl] at h
      simp only [Option.some.injEq] at h
      subst h
      rfl
  | updateMeshMaterialTexture n mat =>
    simp only [stepOp, Option.some.injEq] at h
    subst h
    rfl
  | setLightingAvailable b =>
    simp only [stepOp, Option.some.injEq] at h
    subst h
    rfl
  | toggleIsGridEnabled =>
    simp only [stepOp, Option.some.injEq] at h
    subst h
    rfl
  | toggleIsAxesEnabled =>
    simp only [stepOp, Option.some.injEq] at h
    subst h
    rfl
  | toggleIsNightVisionEnabled =>
    simp only [stepOp, Option.some.injEq] at h
    subst h
    unfold Renderer.toggleIsNightVisionEnabled
    dsimp only
    split <;> rfl
  | toggleIsWireframeEnabled =>
    simp only [stepOp, Option.some.injEq] at h
    subst h
    rfl
  | toggleIsNormalsEnabled =>
    simp only [stepOp, Option.some.injEq] at h
    subst h
    rfl
  | toggleIsDevDebugEnabled =>
    simp only [stepOp, Option.some.injEq] at h
    subst h
    rfl

/-- Witness for the amended C2 theorem: `clearMesh` from the fresh
renderer yields watermark 0. -/
theorem c2_witness : (Renderer.clearMesh initState).modelsAvailable = 0 :=
  c2_watermark_effect RenderOp.clearMesh initState (Renderer.clearMesh initState) rfl

/-- C3: `setModelToUse(s)` is a silent no-op when `s` exceeds the
watermark and activates `s` when `s` is at most the watermark; and in
every state reachable by any sequence of renderer operations, the
active stage never exceeds the watermark. -/
theorem c3_setModelToUse_policy :
    (∀ (s : RendererState) (m : MeshType), s.modelsAvailable < m.toNat →
        (Renderer.setModelToUse m s).meshToUse = s.meshToUse) ∧
      (∀ (s : RendererState) (m : MeshType), m.toNat ≤ s.modelsAvailable →
        (Renderer.setModelToUse m s).meshToUse = m) ∧
      ∀ (ops : List RenderOp) (s : RendererState), runOps ops = some s →
        s.meshToUse.toNat ≤ s.modelsAvailable := by
  refine ⟨?_, ?_, ?_⟩
  · intro s m h
    rw [setModelToUse_of_gt m s h]
  · intro s m h
    rw [setModelToUse_of_le m s h]
  · exact fun ops s h => runOps_inv ops s h

/-- Witness for the C3 theorem at concrete inputs: requesting
`BlockMesh` on the fresh renderer is ignored, requesting `None` is
honoured, and the invariant holds after `clearMesh`. -/
theorem c3_witness :
    (Renderer.setModelToUse MeshType.BlockMesh initState).meshToUse = MeshType.None ∧
      (Renderer.setModelToUse MeshType.None initState).meshToUse = MeshType.None ∧
      (Renderer.clearMesh initState).meshToUse.toNat ≤
        (Renderer.clearMesh initState).modelsAvailable :=
  ⟨c3_setModelToUse_policy.1 initState MeshType.BlockMesh (by decide),
   c3_setModelToUse_policy.2.1 initState MeshType.None (by decide),
   c3_setModelToUse_policy.2.2 [RenderOp.clearMesh] (Renderer.clearMesh initState) rfl⟩

/-- C4: a first voxel chunk resets the voxel buffer list to exactly
the new chunk, sets the watermark to `VoxelMesh` and makes `VoxelMesh`
the active stage; a subsequent chunk appends to the existing list
without discarding prior chunks and leaves the watermark and active
stage unchanged. -/
theorem c4_voxel_chunk_sequencing :
    (∀ (s : RendererState) (p : VoxelChunkParams), p.isFirstChunk = true →
        (Renderer.useVoxelMeshChunk p s).voxelBuffer = some [p.buffer] ∧
          (Renderer.useVoxelMeshChunk p s).modelsAvailable = 2 ∧
          (Renderer.useVoxelMeshChunk p s).meshToUse = MeshType.VoxelMesh) ∧
      ∀ (s : RendererState) (p : VoxelChunkParams) (l : List Nat),
        p.isFirstChunk = false → s.voxelBuffer = some l →
          (Renderer.useVoxelMeshChunk p s).voxelBuffer = some (l ++ [p.buffer]) ∧
            (Renderer.useVoxelMeshChunk p s).modelsAvailable = s.modelsAvailable ∧
            (Renderer.useVoxelMeshChunk p s).meshToUse = s.meshToUse := by
  constructor
  · intro s p hf
    unfold Renderer.useVoxelMeshChunk
    rw [hf]
    simp only [if_true]
    rw [setModelToUse_of_le _ _ Nat.le.refl]
    exact ⟨rfl, rfl, rfl⟩
  · intro s p l hf hl
    unfold Renderer.useVoxelMeshChunk
    rw [hf]
    simp [hl]

/-- Witness for the C4 theorem: the concrete first chunk `vp₀` and the
non-first chunk `vpNF` streamed after it. -/
theorem c4_witness :
    ((Renderer.useVoxelMeshChunk vp₀ initState).voxelBuffer = some [vp₀.buffer] ∧
        (Renderer.useVoxelMeshChunk vp₀ initState).modelsAvailable = 2 ∧
        (Renderer.useVoxelMeshChunk vp₀ initState).meshToUse = MeshType.VoxelMesh) ∧
      (Renderer.useVoxelMeshChunk vpNF afterFirstVoxelChunk).voxelBuffer =
          some ([0] ++ [vpNF.buffer]) ∧
        (Renderer.useVoxelMeshChunk vpNF afterFirstVoxelChunk).modelsAvailable =
          afterFirstVoxelChunk.modelsAvailable ∧
        (Renderer.useVoxelMeshChunk vpNF afterFirstVoxelChunk).meshToUse =
          afterFirstVoxelChunk.meshToUse :=
  ⟨c4_voxel_chunk_sequencing.1 initState vp₀ rfl,
   c4_voxel_chunk_sequencing.2 afterFirstVoxelChunk vpNF [0] rfl (by decide)⟩

/- ===================== Claims C7, C8 ===================== -/

/-- C7 counterexample: the claim states the grid offset is `-0.5` on
each axis whose dimension is even.  The code has it the other way
round: for the all-even dimensions `(2,2,2)` of `vpEven`, the computed
grid offset is `(0,0,0)`, not `(-0.5,-0.5,-0.5)`. -/
theorem c7_counterexample :
    (Renderer.useVoxelMeshChunk vpEven initState).gridOffset = ⟨0, 0, 0⟩ ∧
      (0 : ℚ) ≠ -(1/2 : ℚ) := by
  constructor
  · rfl
  · norm_num

/-- C7 (amended): on a first voxel chunk with dimensions `D`, the grid
offset is `-0.5` on each axis whose dimension component is odd and `0`
on each even axis, and the grid buffers are built at
`(D + 1) * voxelSize` on every axis. -/
theorem c7_first_chunk_grid (s : RendererState) (p : VoxelChunkParams)
    (hf : p.isFirstChunk = true) :
    (Renderer.useVoxelMeshChunk p s).gridOffset =
        ⟨if p.dimensions.x % 2 = 0 then 0 else -(1/2 : ℚ),
         if p.dimensions.y % 2 = 0 then 0 else -(1/2 : ℚ),
         if p.dimensions.z % 2 = 0 then 0 else -(1/2 : ℚ)⟩ ∧
      (Renderer.useVoxelMeshChunk p s).gridBuffersX MeshType.VoxelMesh =
        some (.gridX
          ⟨((p.dimensions.x + 1 : ℤ) : ℚ) * p.voxelSize,
           ((p.dimensions.y + 1 : ℤ) : ℚ) * p.voxelSize,
           ((p.dimensions.z + 1 : ℤ) : ℚ) * p.voxelSize⟩ (some p.voxelSize)) ∧
      (Renderer.useVoxelMeshChunk p s).gridBuffersY MeshType.VoxelMesh =
        some (.gridY
          ⟨((p.dimensions.x + 1 : ℤ) : ℚ) * p.voxelSize,
           ((p.dimensions.y + 1 : ℤ) : ℚ) * p.voxelSize,
           ((p.dimensions.z + 1 : ℤ) : ℚ) * p.voxelSize⟩ (some p.voxelSize)) ∧
      (Renderer.useVoxelMeshChunk p s).gridBuffersZ MeshType.VoxelMesh =
        some (.gridZ
          ⟨((p.dimensions.x + 1 : ℤ) : ℚ) * p.voxelSize,
           ((p.dimensions.y + 1 : ℤ) : ℚ) * p.voxelSize,
           ((p.dimensions.z + 1 : ℤ) : ℚ) * p.voxelSize⟩ (some p.voxelSize)) := by
  unfold Renderer.useVoxelMeshChunk
  rw [hf]
  simp only [if_true]
  rw [setModelToUse_of_le _ _ Nat.le.refl]
  refine ⟨rfl, ?_, ?_, ?_⟩ <;> simp [setGrid]

/-- Witness for the amended C7 theorem at the odd-dimension chunk `vp₀`. -/
theorem c7_witness :
    (Renderer.useVoxelMeshChunk vp₀ initState).gridOffset =
        ⟨if vp₀.dimensions.x % 2 = 0 then 0 else -(1/2 : ℚ),
         if vp₀.dimensions.y % 2 = 0 then 0 else -(1/2 : ℚ),
         if vp₀.dimensions.z % 2 = 0 then 0 else -(1/2 : ℚ)⟩ ∧
      (Renderer.useVoxelMeshChunk vp₀ initState).gridBuffersX MeshType.VoxelMesh =
        some (.gridX
          ⟨((vp₀.dimensions.x + 1 : ℤ) : ℚ) * vp₀.voxelSize,
           ((vp₀.dimensions.y + 1 : ℤ) : ℚ) * vp₀.voxelSize,
           ((vp₀.dimensions.z + 1 : ℤ) : ℚ) * vp₀.voxelSize⟩ (some vp₀.voxelSize)) ∧
      (Renderer.useVoxelMeshChunk vp₀ initState).gridBuffersY MeshType.VoxelMesh =
        some (.gridY
          ⟨((vp₀.dimensions.x + 1 : ℤ) : ℚ) * vp₀.voxelSize,
           ((vp₀.dimensions.y + 1 : ℤ) : ℚ) * vp₀.voxelSize,
           ((vp₀.dimensions.z + 1 : ℤ) : ℚ) * vp₀.voxelSize⟩ (some vp₀.voxelSize)) ∧
      (Renderer.useVoxelMeshChunk vp₀ initState).gridBuffersZ MeshType.VoxelMesh =
        some (.gridZ
          ⟨((vp₀.dimensions.x + 1 : ℤ) : ℚ) * vp₀.voxelSize,
           ((vp₀.dimensions.y + 1 : ℤ) : ℚ) * vp₀.voxelSize,
           ((vp₀.dimensions.z + 1 : ℤ) : ℚ) * vp₀.voxelSize⟩ (some vp₀.voxelSize)) :=
  c7_first_chunk_grid initState vp₀ rfl

/-- C8 counterexample: the claim states `clearMesh` discards all
streamed stage data including the voxel and block chunk buffer lists.
It does not: after a first voxel chunk the voxel buffer list holds one
chunk, and `clearMesh` leaves it in place. -/
theorem c8_counterexample :
    afterFirstVoxelChunk.voxelBuffer = some [0] ∧
      (Renderer.clearMesh afterFirstVoxelChunk).voxelBuffer = some [0] := by
  refine ⟨by decide, by decide⟩

/-- C8 (amended): `clearMesh` empties the material buffer map and
resets the watermark and the active stage to `None`, and changes
nothing else: the voxel and block chunk buffer lists, grid buffers,
atlas data and voxel size all survive (the cleared stages are merely no
longer selectable). -/
theorem c8_clearMesh_effect (s : RendererState) :
    Renderer.clearMesh s =
      { s with materialBuffers := [], modelsAvailable := 0, meshToUse := MeshType.None } := by
  unfold Renderer.clearMesh
  rw [setModelToUse_of_le _ _ Nat.le.refl]

/- ===================== Claims C9, C10 ===================== -/

theorem lookupEntry_mapSetEntry (l : List (String × MaterialBufferEntry))
    (k : String) (v : MaterialBufferEntry) (q : String) :
    lookupEntry (mapSetEntry l k v) q =
      if q = k then some v else lookupEntry l q := by
  induction l with
  | nil =>
    by_cases h : q = k
    · subst h
      simp [mapSetEntry, lookupEntry]
    · simp [mapSetEntry, lookupEntry, h, Ne.symm h]
  | cons e rest ih =>
    obtain ⟨ek, ev⟩ := e
    by_cases hek : ek = k
    · subst hek
      by_cases hq : ek = q
      · subst hq
        simp [mapSetEntry, lookupEntry]
      · simp [mapSetEntry, lookupEntry, hq, Ne.symm hq]
    · by_cases hq : ek = q
      · subst hq
        simp [mapSetEntry, lookupEntry, hek, Ne.symm hek]
      · simp [mapSetEntry, lookupEntry, hek, hq, ih]

theorem lookupEntry_update_geometry (l : List (String × MaterialBufferEntry))
    (name : String) (mat : TexturedMaterial) (k : String) :
    (lookupEntry
        (l.map (fun e =>
          if e.2.materialName = name then (e.1, { e.2 with material := storedTextured mat })
          else e)) k).map (fun e => (e.buffer, e.numElements)) =
      (lookupEntry l k).map (fun e => (e.buffer, e.numElements)) := by
  induction l with
  | nil => simp [lookupEntry]
  | cons e rest ih =>
    by_cases hm : e.2.materialName = name <;> by_cases hk : e.1 = k <;>
      simp [lookupEntry, hm, hk, ih]

theorem map_update_of_absent (l : List (String × MaterialBufferEntry))
    (name : String) (mat : TexturedMaterial)
    (h : ∀ e ∈ l, e.2.materialName ≠ name) :
    l.map (fun e =>
        if e.2.materialName = name then (e.1, { e.2 with material := storedTextured mat })
        else e) = l := by
  induction l with
  | nil => simp
  | cons e rest ih =>
    rw [List.map_cons, if_neg (h e (List.mem_cons_self e rest)),
      ih (fun e' he' => h e' (List.mem_cons_of_mem e he'))]

/-- C9 counterexample: the claim states `updateMeshMaterialTexture`
fails with a fatal assertion when the name has no buffer entry.  It
does not: the method only iterates the map, so on the fresh renderer
(empty material map) it returns normally with the state unchanged. -/
theorem c9_counterexample :
    Renderer.updateMeshMaterialTexture "wood" tm₀ initState = initState := rfl

/-- C9 (amended): `recreateMaterialBuffer` fails with a fatal
assertion (modelled as `none`) when the material name has no buffer
entry, and otherwise replaces only the entry's stored material,
keeping its geometry buffer and element count; but
`updateMeshMaterialTexture` makes no assertion - with no matching
entry it silently leaves the map unchanged - and it, too, never
touches any entry's geometry buffer or element count. -/
theorem c9_material_metadata_update :
    (∀ (s : RendererState) (name : String) (mat : Material),
        lookupEntry s.materialBuffers name = none →
          Renderer.recreateMaterialBuffer name mat s = none) ∧
      (∀ (s : RendererState) (name : String) (mat : Material) (old : MaterialBufferEntry),
        lookupEntry s.materialBuffers name = some old →
          Renderer.recreateMaterialBuffer name mat s =
            some { s with
              materialBuffers := mapSetEntry s.materialBuffers name
                { material := convertMaterial mat, buffer := old.buffer,
                  numElements := old.numElements, materialName := name } }) ∧
      (∀ (s : RendererState) (name : String) (mat : TexturedMaterial),
        (∀ e ∈ s.materialBuffers, e.2.materialName ≠ name) →
          Renderer.updateMeshMaterialTexture name mat s = s) ∧
      ∀ (s : RendererState) (name : String) (mat : TexturedMaterial) (k : String),
        (lookupEntry (Renderer.updateMeshMaterialTexture name mat s).materialBuffers k).map
            (fun e => (e.buffer, e.numElements)) =
          (lookupEntry s.materialBuffers k).map (fun e => (e.buffer, e.numElements)) := by
  refine ⟨?_, ?_, ?_, ?_⟩
  · intro s name mat h
    unfold Renderer.recreateMaterialBuffer
    rw [h]
  · intro s name mat old h
    unfold Renderer.recreateMaterialBuffer
    rw [h]
  · intro s name mat h
    unfold Renderer.updateMeshMaterialTexture
    rw [map_update_of_absent s.materialBuffers name mat h]
  · intro s name mat k
    unfold Renderer.updateMeshMaterialTexture
    exact lookupEntry_update_geometry s.materialBuffers name mat k

/-- Witness for the amended C9 theorem at concrete inputs on the fresh
renderer. -/
theorem c9_witness :
    Renderer.recreateMaterialBuffer "a" (Material.solid sm₀) initState = none ∧
      Renderer.updateMeshMaterialTexture "a" tm₀ initState = initState ∧
      (lookupEntry
          (Renderer.updateMeshMaterialTexture "a" tm₀ initState).materialBuffers "a").map
          (fun e => (e.buffer, e.numElements)) =
        (lookupEntry initState.materialBuffers "a").map (fun e => (e.buffer, e.numElements)) :=
  ⟨c9_material_metadata_update.1 initState "a" (Material.solid sm₀) rfl,
   c9_material_metadata_update.2.2.1 initState "a" tm₀
     (fun e he => absurd he (List.not_mem_nil e)),
   c9_material_metadata_update.2.2.2 initState "a" tm₀ "a"⟩

/-- C10: a voxel (respectively block) chunk with `isFirstChunk = false`
arriving while the corresponding buffer list is still uninitialised
does not fail: the optional-chaining push appends nothing, and the
watermark and active stage are untouched; on the voxel path the
voxel-size scalar and the all-chunks-received flag are still updated,
while on the block path the state is unchanged entirely. -/
theorem c10_uninitialised_chunk_lists :
    (∀ (s : RendererState) (p : VoxelChunkParams),
        p.isFirstChunk = false → s.voxelBuffer = none →
          Renderer.useVoxelMeshChunk p s =
            { s with voxelBuffer := none,
                     allVoxelChunks := !p.moreVoxelsToBuffer,
                     voxelSize := p.voxelSize }) ∧
      ∀ (s : RendererState) (p : BlockChunkParams),
        p.isFirstChunk = false → s.blockBuffer = none →
          Renderer.useBlockMeshChunk p s = s := by
  constructor
  · intro s p hf hv
    unfold Renderer.useVoxelMeshChunk
    rw [hf]
    simp [hv]
  · intro s p hf hb
    unfold Renderer.useBlockMeshChunk
    rw [hf]
    simp only [Bool.false_eq_true, if_false]
    rw [hb]
    show { s with blockBuffer := none } = s
    rw [← hb]

/-- Witness for the C10 theorem: concrete non-first chunks arriving at
the fresh renderer, whose buffer lists are still uninitialised. -/
theorem c10_witness :
    Renderer.useVoxelMeshChunk vpNF initState =
        { initState with voxelBuffer := none,
                         allVoxelChunks := !vpNF.moreVoxelsToBuffer,
                         voxelSize := vpNF.voxelSize } ∧
      Renderer.useBlockMeshChunk bpNF initState = initState :=
  ⟨c10_uninitialised_chunk_lists.1 initState vpNF rfl rfl,
   c10_uninitialised_chunk_lists.2 initState bpNF rfl rfl⟩

end ObjToSchematic
